import Mathlib

/-!
Verification development for the twilio-fastapi repository.

The Python sources are shallowly embedded:
* `validate_phone_number` models src/app/main.py lines 42-71 (an identical
  copy lives in src/app/database.py lines 50-81); Python strings are lists
  of characters.
* `Settings` models src/app/config.py.
* The `MessageBatcher` of src/app/message_batcher.py is modelled as a
  small-step machine over an association-list state, with the asynchronous
  timer tasks made explicit.
* The `chat` webhook of src/app/main.py lines 178-230 is modelled as a pure
  function over an in-memory database state.
-/

namespace Twilio

/-! ### Phone-number validation (src/app/main.py lines 42-71) -/

/-- The characters of the pattern removed by `phone.replace("whatsapp:", "")`. -/
def patWhatsapp : List Char := ['w', 'h', 'a', 't', 's', 'a', 'p', 'p', ':']

/-- Models Python `str.replace("whatsapp:", "")`: remove every left-to-right,
non-overlapping occurrence of the pattern.  Structural recursion on a fuel
argument; `removeWhatsapp` supplies fuel equal to the string length, which is
sufficient because every step consumes at least one character. -/
def removeWhatsappAux : Nat → List Char → List Char
  | 0, l => l
  | _ + 1, [] => []
  | fuel + 1, c :: rest =>
    if patWhatsapp.isPrefixOf (c :: rest) then
      removeWhatsappAux fuel ((c :: rest).drop patWhatsapp.length)
    else
      c :: removeWhatsappAux fuel rest

/-- Python `phone.replace("whatsapp:", "")` on a list of characters. -/
def removeWhatsapp (l : List Char) : List Char :=
  removeWhatsappAux l.length l

/-- The whitespace characters stripped by Python `str.strip()` (ASCII part). -/
def pySpaceChars : List Char := [' ', '\t', '\n', '\r', '\x0b', '\x0c']

/-- Whether Python `str.strip()` treats `c` as whitespace. -/
def pyIsSpace (c : Char) : Bool := pySpaceChars.contains c

/-- Python `str.strip()`: drop leading and trailing whitespace. -/
def pyStrip (l : List Char) : List Char :=
  ((l.dropWhile pyIsSpace).reverse.dropWhile pyIsSpace).reverse

/-- Python `str.isdigit()` (restricted to the ASCII digits that occur in
phone numbers): true iff the string is nonempty and all characters are
digits. -/
def pyIsDigitStr (l : List Char) : Bool := !l.isEmpty && l.all Char.isDigit

/-- The characters of the prefix `+595` tested by `normalized.startswith("+595")`. -/
def pat595 : List Char := ['+', '5', '9', '5']

/-- The normalisation pipeline of `validate_phone_number` lines 47-50:
remove `whatsapp:` occurrences, strip surrounding whitespace, then remove
all remaining spaces. -/
def pyNormalize (phone : List Char) : List Char :=
  (pyStrip (removeWhatsapp phone)).filter (fun c => c != ' ')

/-- Models `validate_phone_number` (src/app/main.py lines 42-71): normalise,
then check the country-code shape.  A raised `ValueError` is modelled as
`.error` with the source's message. -/
def validate_phone_number (phone : List Char) : Except String (List Char) :=
  let normalized := pyNormalize phone
  if !(['+'].isPrefixOf normalized) then
    .error ("Phone number must start with country code (e.g., +595)")
  else if pat595.isPrefixOf normalized then
    if normalized.length ≠ 13 then
      .error ("Paraguayan phone number must be +595 followed by 9 digits")
    else if !(pyIsDigitStr (normalized.drop 4)) then
      .error ("Phone number must contain only digits after country code")
    else
      .ok normalized
  else
    if !(pyIsDigitStr (normalized.drop 1)) then
      .error ("Phone number must contain only digits after country code")
    else
      .ok normalized

/-! ### Configuration (src/app/config.py) -/

/-- Models the `Settings` pydantic class (src/app/config.py lines 5-17).
The float field `temperature` is omitted from the model; all other fields
are kept with their declared defaults. -/
structure Settings where
  model : String
  instructions : String
  max_output_tokens : Nat
  debounce_time : Nat
deriving Repr, DecidableEq

/-- The default `Settings()` instance (what `get_settings` returns when no
environment overrides are present).  Note `debounce_time := 0`. -/
def defaultSettings : Settings :=
  { model := "gpt-4.1-mini"
  , instructions := "You are a helpful assistant that can answer questions directly to the point and concisely."
  , max_output_tokens := 150
  , debounce_time := 0 }

/-- The number of seconds slept by `MessageBatcher._wait_and_process`
(src/app/message_batcher.py line 68): the literal `10` in
`await asyncio.sleep(10)`.  The function takes the settings as an argument to
record that the sleep length does not depend on them: no code in the
repository reads `Settings.debounce_time`. -/
def debounce_sleep_seconds (s : Settings) : Nat := 10

/-! ### MessageBatcher (src/app/message_batcher.py)

The batcher is modelled as a small-step machine.  State components mirror the
Python object and the asyncio runtime:

* `pending_batches` is the `self.pending_batches` dict as an association
  list (Python dicts preserve insertion order);
* `next_task` allocates ids for timer tasks created by
  `asyncio.create_task(self._wait_and_process(user_id))`;
* `sleeping` holds tasks currently suspended in `asyncio.sleep(10)`;
* `cancelled` holds tasks whose sleep was interrupted by `.cancel()` and
  that have yet to run their `except asyncio.CancelledError: raise` handler;
* `inflight` holds tasks that finished sleeping, read their batch data
  (message_batcher.py lines 70-77) and are suspended in the downstream I/O
  of `_process_batch`; the read data is the snapshot stored with them;
* `done` holds finished tasks (`task.done()` is true exactly for these).

Steps (`Act`):
* `add` runs the whole body of `add_message` (it contains no await, so it is
  atomic on the event loop);
* `fireBegin` is a timer completing its sleep and executing lines 70-77:
  it reads `self.pending_batches.get(user_id)` WITHOUT removing the entry;
* `fireEnd` is the completion of `await self._process_batch(...)` followed by
  `self._cleanup(user_id)`; `_process_batch` catches every `Exception`
  internally (lines 132-133), so this step always proceeds to `_cleanup`;
* `fireCancelled` is a cancelled timer running
  `except asyncio.CancelledError: raise` (lines 92-94): no other work.

`_process_batch` contains no await point (its downstream calls are plain
synchronous calls), so the whole post-sleep body — lines 70-90 — runs
atomically on the event loop: in every source-faithful schedule `fireEnd`
follows its `fireBegin` immediately, with no other act between the two.
The split into two acts serves only to name the intermediate state at which
`_process_batch` is entered; on such adjacent schedules the batch data
recorded at `fireBegin` coincides with the live map entry consumed at
`fireEnd`.  Every theorem below schedules the two acts adjacently.

For the same reason a `.cancel()` on a task that is already past its sleep
has no modelled effect: there is no await point left at which the
`CancelledError` could be delivered before the coroutine finishes. -/

/-- The `MessageDirection` enum (src/app/models/database.py). -/
inductive MessageDirection where
  | incoming
  | outgoing
deriving Repr, DecidableEq

/-- One entry of `self.pending_batches` (the per-user dict built in
`add_message` lines 49-53 plus the `"timer"` key set at line 58). -/
structure BatchData where
  messages : List String
  phone_number : String
  conversation_id : String
  timer : Nat
deriving Repr, DecidableEq

/-- Observable calls made by the batcher to its collaborators, in order. -/
inductive Event where
  | genCall (combined : String) (conversation_id : String)
  | sendCall (recipient : String) (body : String)
  | saveCall (recipient : String) (sender : String) (text : String)
      (direction : MessageDirection) (user_id : Option Nat)
  | errorLogged (msg : String)
deriving Repr, DecidableEq

/-- The downstream collaborators of the batcher, as oracles: `gen` is
`_get_chatgpt_reply`, `send` is `_send_whatsapp_message`, `save` is
`_save_message` (with the db session elided); a raised exception is an
`.error`.  `whatsapp_number` is `self.whatsapp_number`. -/
structure Collab where
  gen : String → String → Except String String
  send : String → String → Except String Unit
  save : String → String → String → MessageDirection → Option Nat → Except String Unit
  whatsapp_number : String

/-- The separator join of `_process_batch` line 110: `"\n".join(messages)`. -/
def joinNL (msgs : List String) : String := String.intercalate ("\n") msgs

/-- Models `_process_batch` (src/app/message_batcher.py lines 99-133) as the
list of collaborator events it emits.  The generator is always called first;
the sender only runs if generation returned; the save only runs if sending
returned; any raised exception is caught by the `except Exception` at line
132 and logged, after which the function returns normally. -/
def process_batch (cb : Collab) (user_id : Nat) (messages : List String)
    (phone_number : String) (conversation_id : String) : List Event :=
  let combined := joinNL messages
  match cb.gen combined conversation_id with
  | .error e => [.genCall combined conversation_id,
                 .errorLogged ("ERROR PROCESSING BATCH: " ++ e)]
  | .ok reply =>
    match cb.send phone_number reply with
    | .error e => [.genCall combined conversation_id,
                   .sendCall phone_number reply,
                   .errorLogged ("ERROR PROCESSING BATCH: " ++ e)]
    | .ok _ =>
      match cb.save phone_number cb.whatsapp_number reply MessageDirection.outgoing (some user_id) with
      | .error e => [.genCall combined conversation_id,
                     .sendCall phone_number reply,
                     .saveCall phone_number cb.whatsapp_number reply MessageDirection.outgoing (some user_id),
                     .errorLogged ("ERROR PROCESSING BATCH: " ++ e)]
      | .ok _ => [.genCall combined conversation_id,
                  .sendCall phone_number reply,
                  .saveCall phone_number cb.whatsapp_number reply MessageDirection.outgoing (some user_id)]

/-- `self.pending_batches.get(user_id)` over the association list. -/
def lookupBatch (u : Nat) : List (Nat × BatchData) → Option BatchData
  | [] => none
  | (k, b) :: rest => if k = u then some b else lookupBatch u rest

/-- In-place update of the entry for `u` (Python mutates the dict value). -/
def updateBatch (u : Nat) (f : BatchData → BatchData) :
    List (Nat × BatchData) → List (Nat × BatchData)
  | [] => []
  | (k, b) :: rest => if k = u then (k, f b) :: rest else (k, b) :: updateBatch u f rest

/-- `del self.pending_batches[user_id]` guarded by `if user_id in ...`
(`_cleanup`, lines 177-183): removing an absent key is a no-op. -/
def removeBatch (u : Nat) (m : List (Nat × BatchData)) : List (Nat × BatchData) :=
  m.filter (fun kb => kb.1 != u)

/-- The machine state (the batcher object plus the asyncio task pool). -/
structure BatcherState where
  pending_batches : List (Nat × BatchData)
  next_task : Nat
  sleeping : List Nat
  cancelled : List Nat
  inflight : List (Nat × Nat × BatchData)
  done : List Nat
deriving Repr, DecidableEq

/-- A freshly constructed `MessageBatcher` (empty dict, no tasks). -/
def initialState : BatcherState :=
  { pending_batches := []
  , next_task := 0
  , sleeping := []
  , cancelled := []
  , inflight := []
  , done := [] }

/-- `_cleanup(user_id)` applied to the state. -/
def cleanup (u : Nat) (s : BatcherState) : BatcherState :=
  { s with pending_batches := removeBatch u s.pending_batches }

/-- Locate the in-flight flush of timer `t` for user `u`. -/
def findInflight (t u : Nat) :
    List (Nat × Nat × BatchData) → Option (Nat × Nat × BatchData)
  | [] => none
  | x :: rest => if x.1 = t ∧ x.2.1 = u then some x else findInflight t u rest

/-- The machine's labels. -/
inductive Act where
  | add (u : Nat) (msg : String) (phone : String) (conv : String)
  | fireBegin (t : Nat) (u : Nat)
  | fireEnd (t : Nat) (u : Nat)
  | fireCancelled (t : Nat)
deriving Repr, DecidableEq

/-- One step of the machine.  `none` means the act is not enabled in `s`
(e.g. firing a timer that is not sleeping). -/
def step (cb : Collab) (s : BatcherState) (a : Act) :
    Option (BatcherState × List Event) :=
  match a with
  | .add u msg phone conv =>
    -- add_message, lines 38-58 (atomic: the coroutine never awaits)
    let t := s.next_task
    match lookupBatch u s.pending_batches with
    | some b =>
      -- cancel existing timer if not done (lines 39-42), then append (line 45)
      let sleeping1 := s.sleeping.erase b.timer
      let cancelled1 :=
        if b.timer ∈ s.sleeping then b.timer :: s.cancelled else s.cancelled
      let m1 := updateBatch u
        (fun bb => { bb with messages := bb.messages ++ [msg], timer := t })
        s.pending_batches
      some ({ s with
                pending_batches := m1,
                next_task := t + 1,
                sleeping := t :: sleeping1,
                cancelled := cancelled1 }, [])
    | none =>
      -- create new batch (lines 49-53), then start timer (lines 57-58)
      let m1 := s.pending_batches ++ [(u, ⟨[msg], phone, conv, t⟩)]
      some ({ s with
                pending_batches := m1,
                next_task := t + 1,
                sleeping := t :: s.sleeping }, [])
  | .fireBegin t u =>
    -- sleep completes; _wait_and_process lines 70-77 read the batch data
    if t ∈ s.sleeping then
      let s1 := { s with sleeping := s.sleeping.erase t }
      match lookupBatch u s1.pending_batches with
      | none => some ({ s1 with done := t :: s1.done }, [])
      | some b => some ({ s1 with inflight := (t, u, b) :: s1.inflight }, [])
    else none
  | .fireEnd t u =>
    -- _process_batch completes with the snapshot, then _cleanup (line 90)
    match findInflight t u s.inflight with
    | some x =>
      let evs := process_batch cb u x.2.2.messages x.2.2.phone_number x.2.2.conversation_id
      let s1 := cleanup u { s with inflight := s.inflight.filter (fun y => y.1 != t) }
      some ({ s1 with done := t :: s1.done }, evs)
    | none => none
  | .fireCancelled t =>
    -- lines 92-94: catch CancelledError, re-raise; no cleanup, no calls
    if t ∈ s.cancelled then
      some ({ s with cancelled := s.cancelled.erase t, done := t :: s.done }, [])
    else none

/-- Run a sequence of acts, collecting events. -/
def exec (cb : Collab) : BatcherState → List Act → Option (BatcherState × List Event)
  | s, [] => some (s, [])
  | s, a :: rest =>
    match step cb s a with
    | none => none
    | some (s1, evs) =>
      match exec cb s1 rest with
      | none => none
      | some (s2, evs2) => some (s2, evs ++ evs2)

/-- The `AddMessage` acts for one user and a list of
(message, phone, conversation) triples. -/
def addActs (u : Nat) (l : List (String × String × String)) : List Act :=
  l.map (fun x => .add u x.1 x.2.1 x.2.2)

/-- Whether an event is an invocation of the Reply Generator. -/
def Event.isGenCall : Event → Bool
  | .genCall _ _ => true
  | _ => false

/-- Whether an event is an error log entry. -/
def Event.isErrorLogged : Event → Bool
  | .errorLogged _ => true
  | _ => false

/-- A convenient single-user state shape: one batch for `u` whose current
timer `t` is the only sleeping task, no task in flight. -/
def singleState (u : Nat) (msgs : List String) (p c : String) (t : Nat)
    (canc : List Nat) : BatcherState :=
  { pending_batches := [(u, ⟨msgs, p, c, t⟩)]
  , next_task := t + 1
  , sleeping := [t]
  , cancelled := canc
  , inflight := []
  , done := [] }

/-! ### The `/chat` webhook endpoint (src/app/main.py lines 178-230)

The relational store is modelled as an in-memory `Db`; SQLAlchemy timestamps
and the unused user fields are elided.  The OpenAI `conversations.create()`
call is an oracle supplying the fresh conversation id. -/

/-- A row of the `users` table (src/app/models/database.py), restricted to
the columns the endpoint reads or writes. -/
structure DbUser where
  id : Nat
  phone_number : String
  openai_conversation_id : Option String
deriving Repr, DecidableEq

/-- A row of the `messages` table, restricted to the columns set by
`save_message` (src/app/main.py lines 131-150). -/
structure SavedMessage where
  recipient : String
  sender : String
  message_text : String
  direction : MessageDirection
  user_id : Option Nat
deriving Repr, DecidableEq

/-- The database state. -/
structure Db where
  users : List DbUser
  messages : List SavedMessage
  next_user_id : Nat
deriving Repr, DecidableEq

/-- Work the endpoint hands off instead of doing synchronously.
`backgroundTask` is `background_tasks.add_task(process_and_respond, ...)`
(src/app/main.py lines 217-224); `addMessageCall` would be a call to
`MessageBatcher.add_message` — it is in the vocabulary so that claims about
the coordinator being invoked are statable, but `chat` never emits it. -/
inductive ChatEffect where
  | backgroundTask (recipient : String) (message : String)
      (whatsapp_number : String) (conversation_id : String) (user_id : Nat)
  | addMessageCall (user_id : Nat) (message : String) (phone : String)
      (conversation_id : String)
deriving Repr, DecidableEq

/-- Whether an effect is a `MessageBatcher.add_message` invocation. -/
def ChatEffect.isAddMessageCall : ChatEffect → Bool
  | .addMessageCall _ _ _ _ => true
  | _ => false

/-- `db.query(User).filter(User.phone_number == phone).first()`. -/
def find_user_by_phone (db : Db) (phone : String) : Option DbUser :=
  db.users.find? (fun us => us.phone_number == phone)

/-- `get_or_create_user` (src/app/main.py lines 74-89). -/
def get_or_create_user (db : Db) (phone : String) : Db × DbUser :=
  match find_user_by_phone db phone with
  | some us => (db, us)
  | none =>
    let us : DbUser := ⟨db.next_user_id, phone, none⟩
    ({ db with users := db.users ++ [us], next_user_id := db.next_user_id + 1 }, us)

/-- `get_or_create_conversation` (src/app/main.py lines 92-106);
`newConvId` is the id returned by `openai_client.conversations.create()`. -/
def get_or_create_conversation (newConvId : String) (db : Db) (us : DbUser) :
    Db × String :=
  match us.openai_conversation_id with
  | some cid => (db, cid)
  | none =>
    ({ db with
         users := db.users.map (fun v =>
           if v.id = us.id then { v with openai_conversation_id := some newConvId } else v) },
     newConvId)

/-- `save_message` (src/app/main.py lines 131-150): appends one row. -/
def save_message (db : Db) (recipient sender message_text : String)
    (direction : MessageDirection) (user_id : Option Nat) : Db :=
  { db with
      messages := db.messages ++ [⟨recipient, sender, message_text, direction, user_id⟩] }

/-- The successful response of `chat`: the final database, the deferred
effects, and the JSON `status` field of the 200 body. -/
structure ChatResult where
  db : Db
  effects : List ChatEffect
  status : String
deriving Repr, DecidableEq

/-- Models line 196, `recipient_number = validate_phone_number(To) if To
else whatsapp_number`: Python's truthiness test treats both an absent `To`
(None) and an empty-string `To` as falsy, defaulting the recipient to the
whatsapp number; a present nonempty `To` is validated, and its
`ValueError` propagates. -/
def resolve_recipient (whats : String) (toNum : Option String) :
    Except String String :=
  match toNum with
  | some tn =>
    if tn ≠ "" then (validate_phone_number tn.toList).map String.mk
    else Except.ok whats
  | none => Except.ok whats

/-- Models the `chat` endpoint (src/app/main.py lines 178-230).
`whats` is the module-level `whatsapp_number`; `toNum` is the optional `To`
form field.  A `ValueError` from validation becomes `.error` (HTTP 400),
in which case nothing is persisted and nothing is scheduled.  The
background task is recorded as an effect, not executed: the endpoint
returns immediately. -/
def chat (whats : String) (newConvId : String) (db : Db)
    (fromNum : String) (body : String) (toNum : Option String) :
    Except String ChatResult :=
  match validate_phone_number fromNum.toList with
  | .error e => .error e
  | .ok senderL =>
    let sender := String.mk senderL
    match resolve_recipient whats toNum with
    | .error e => .error e
    | .ok recipient =>
      let p1 := get_or_create_user db sender
      let p2 := get_or_create_conversation newConvId p1.1 p1.2
      let db3 := save_message p2.1 recipient sender body MessageDirection.incoming (some p1.2.id)
      .ok { db := db3
          , effects := [ChatEffect.backgroundTask sender body whats p2.2 p1.2.id]
          , status := "received" }

/-- An empty database. -/
def emptyDb : Db := { users := [], messages := [], next_user_id := 1 }

/-! ### Concrete instances used by counterexamples and witnesses -/

/-- Collaborators that all succeed; the reply prefixes the prompt. -/
def cbOk : Collab :=
  { gen := fun m _ => .ok ("re: " ++ m)
  , send := fun _ _ => .ok ()
  , save := fun _ _ _ _ _ => .ok ()
  , whatsapp_number := "+1000" }

/-- Collaborators whose generation step raises. -/
def cbGenFail : Collab :=
  { gen := fun _ _ => .error ("gen boom")
  , send := fun _ _ => .ok ()
  , save := fun _ _ _ _ _ => .ok ()
  , whatsapp_number := "+1000" }

/-- Collaborators whose persistence step raises. -/
def cbSaveFail : Collab :=
  { gen := fun m _ => .ok ("re: " ++ m)
  , send := fun _ _ => .ok ()
  , save := fun _ _ _ _ _ => .error ("db boom")
  , whatsapp_number := "+1000" }

/-- A state with one single-message batch for user 1 under timer 0. -/
def stateA : BatcherState := singleState 1 [("A")] ("p1") ("c1") 0 []

/-- A failure of some downstream step of `_process_batch` on batch `b`:
generation raises, or generation succeeds and sending raises, or both
succeed and persistence raises. -/
def processFails (cb : Collab) (u : Nat) (b : BatchData) : Prop :=
  (∃ e, cb.gen (joinNL b.messages) b.conversation_id = .error e) ∨
  (∃ r e, cb.gen (joinNL b.messages) b.conversation_id = .ok r ∧
          cb.send b.phone_number r = .error e) ∨
  (∃ r e, cb.gen (joinNL b.messages) b.conversation_id = .ok r ∧
          cb.send b.phone_number r = .ok () ∧
          cb.save b.phone_number cb.whatsapp_number r MessageDirection.outgoing (some u) = .error e)

/-! ## Helper lemmas -/

theorem exec_append (cb : Collab) (l1 l2 : List Act) : ∀ s : BatcherState,
    exec cb s (l1 ++ l2) =
      match exec cb s l1 with
      | none => none
      | some (s1, e1) =>
        match exec cb s1 l2 with
        | none => none
        | some (s2, e2) => some (s2, e1 ++ e2) := by
  induction l1 with
  | nil =>
    intro s
    simp [exec]
    cases exec cb s l2 with
    | none => rfl
    | some r => rfl
  | cons a l1 ih =>
    intro s
    cases hs : step cb s a with
    | none => simp [exec, hs]
    | some r =>
      obtain ⟨s1, e1⟩ := r
      simp only [List.cons_append, exec, hs]
      simp only [List.append_eq]
      rw [ih s1]
      cases h1 : exec cb s1 l1 with
      | none => simp
      | some r1 =>
        obtain ⟨s2, e2⟩ := r1
        cases h2 : exec cb s2 l2 with
        | none => simp [h2]
        | some r2 => simp [h2, List.append_assoc]

theorem step_singleState_add (cb : Collab) (u : Nat) (msgs : List String)
    (p c : String) (t : Nat) (canc : List Nat) (m p2 c2 : String) :
    step cb (singleState u msgs p c t canc) (Act.add u m p2 c2)
      = some (singleState u (msgs ++ [m]) p c (t + 1) (t :: canc), []) := by
  simp [step, singleState, lookupBatch, updateBatch, List.erase_cons_head]

theorem exec_addActs (cb : Collab) (u : Nat) (p c : String) :
    ∀ (l : List (String × String × String)) (msgs : List String) (t : Nat)
      (canc : List Nat), ∃ canc2 : List Nat,
      exec cb (singleState u msgs p c t canc) (addActs u l)
        = some (singleState u (msgs ++ l.map (fun x => x.1)) p c (t + l.length) canc2, []) := by
  intro l
  induction l with
  | nil =>
    intro msgs t canc
    exact ⟨canc, by simp [addActs, exec]⟩
  | cons x l ih =>
    intro msgs t canc
    obtain ⟨canc2, h⟩ := ih (msgs ++ [x.1]) (t + 1) (t :: canc)
    refine ⟨canc2, ?_⟩
    simp only [addActs, List.map_cons, exec, step_singleState_add]
    rw [show addActs u l = l.map (fun y => Act.add u y.1 y.2.1 y.2.2) from rfl] at h
    rw [h]
    simp [Nat.add_assoc, Nat.add_comm 1 l.length]

theorem step_initial_add (cb : Collab) (u : Nat) (m p c : String) :
    step cb initialState (Act.add u m p c)
      = some (singleState u [m] p c 0 [], []) := by
  simp [step, initialState, lookupBatch, singleState]

theorem lookupBatch_removeBatch (u : Nat) (m : List (Nat × BatchData)) :
    lookupBatch u (removeBatch u m) = none := by
  induction m with
  | nil => simp [removeBatch, lookupBatch]
  | cons kb rest ih =>
    by_cases h : kb.1 = u
    · have hb : (kb.1 != u) = false := by simp [h]
      simp only [removeBatch, List.filter_cons, hb, if_neg, Bool.false_eq_true,
        if_false] at ih ⊢
      exact ih
    · have hb : (kb.1 != u) = true := by simp [h]
      simp only [removeBatch, List.filter_cons, hb, if_true] at ih ⊢
      simpa [lookupBatch, h] using ih

theorem lookupBatch_append_right (u : Nat) (m : List (Nat × BatchData))
    (b : BatchData) (h : lookupBatch u m = none) :
    lookupBatch u (m ++ [(u, b)]) = some b := by
  induction m with
  | nil => simp [lookupBatch]
  | cons kb rest ih =>
    by_cases hk : kb.1 = u
    · simp [lookupBatch, hk] at h
    · simp only [lookupBatch, hk, if_neg, List.cons_append] at h ⊢
      exact ih h

theorem lookupBatch_updateBatch (u : Nat) (f : BatchData → BatchData) :
    ∀ m : List (Nat × BatchData),
      lookupBatch u (updateBatch u f m) = (lookupBatch u m).map f := by
  intro m
  induction m with
  | nil => simp [updateBatch, lookupBatch]
  | cons kb rest ih =>
    by_cases hk : kb.1 = u
    · simp [updateBatch, lookupBatch, hk]
    · simp [updateBatch, lookupBatch, hk, ih]

theorem process_batch_genCalls (cb : Collab) (u : Nat) (msgs : List String)
    (p c : String) :
    (process_batch cb u msgs p c).filter Event.isGenCall
      = [Event.genCall (joinNL msgs) c] := by
  cases hg : cb.gen (joinNL msgs) c with
  | error e => simp [process_batch, hg, Event.isGenCall, List.filter]
  | ok r =>
    cases hs : cb.send p r with
    | error e => simp [process_batch, hg, hs, Event.isGenCall, List.filter]
    | ok v =>
      cases hv : cb.save p cb.whatsapp_number r MessageDirection.outgoing (some u) with
      | error e => simp [process_batch, hg, hs, hv, Event.isGenCall, List.filter]
      | ok v2 => simp [process_batch, hg, hs, hv, Event.isGenCall, List.filter]

theorem exec_fire_pair (cb : Collab) (u : Nat) (msgs : List String)
    (p c : String) (t : Nat) (canc : List Nat) :
    exec cb (singleState u msgs p c t canc) [Act.fireBegin t u, Act.fireEnd t u]
      = some ({ pending_batches := []
              , next_task := t + 1
              , sleeping := []
              , cancelled := canc
              , inflight := []
              , done := [t] },
              process_batch cb u msgs p c) := by
  simp [exec, step, singleState, cleanup, removeBatch, lookupBatch,
    List.erase_cons_head, findInflight]

/-! ## Claim theorems -/

/-- C1: for every nonempty sequence of `AddMessage` calls for one userID all
arriving strictly within the debounce window (each call lands while the
previous timer still sleeps, so only the final timer survives to fire),
exactly one flush occurs — the run's events contain exactly one Reply
Generator invocation — and its combined text is the newline-join of all the
messages' texts in arrival order. -/
theorem claim_C1_debounce_single_flush (cb : Collab) (u : Nat)
    (first : String × String × String) (rest : List (String × String × String)) :
    ∃ sf : BatcherState, ∃ evs : List Event,
      exec cb initialState
        (addActs u (first :: rest) ++ [Act.fireBegin rest.length u, Act.fireEnd rest.length u])
        = some (sf, evs) ∧
      evs = process_batch cb u ((first :: rest).map (fun x => x.1)) first.2.1 first.2.2 ∧
      evs.filter Event.isGenCall
        = [Event.genCall (joinNL ((first :: rest).map (fun x => x.1))) first.2.2] ∧
      lookupBatch u sf.pending_batches = none := by
  obtain ⟨canc2, hAdds⟩ := exec_addActs cb u first.2.1 first.2.2 rest [first.1] 0 []
  have hexec : exec cb initialState (addActs u (first :: rest))
      = some (singleState u (first.1 :: rest.map (fun x => x.1))
                first.2.1 first.2.2 rest.length canc2, []) := by
    have h1 : addActs u (first :: rest)
        = Act.add u first.1 first.2.1 first.2.2 :: addActs u rest := rfl
    rw [h1]
    simp only [exec, step_initial_add]
    rw [hAdds]
    simp
  refine ⟨{ pending_batches := []
          , next_task := rest.length + 1
          , sleeping := []
          , cancelled := canc2
          , inflight := []
          , done := [rest.length] },
          process_batch cb u ((first :: rest).map (fun x => x.1)) first.2.1 first.2.2,
          ?_, rfl, process_batch_genCalls cb u _ first.2.1 first.2.2, rfl⟩
  rw [exec_append, hexec]
  simp [exec_fire_pair]

/-- C2 counterexample: in state `stateA` (one batch for user 1 holding
`"A"`, timer 0 sleeping) the timer fires; the two acts below are the single
atomic post-sleep body, scheduled adjacently.  First conjunct: after the
flush's read step — i.e. at the moment `_process_batch` is entered — the
map STILL contains user 1's entry, refuting "the batch is atomically
detached (removed) before any processing" and "the entry is already gone,
having been removed in step 1".  Second conjunct: the full flush removes
the entry only at its end, via the separate `_cleanup` step that follows
processing. -/
theorem claim_C2_counterexample :
    (step cbOk stateA (Act.fireBegin 0 1)).map
        (fun r => lookupBatch 1 r.1.pending_batches)
      = some (some ⟨["A"], "p1", "c1", 0⟩) ∧
    exec cbOk stateA [Act.fireBegin 0 1, Act.fireEnd 0 1]
      = some ({ pending_batches := []
              , next_task := 1
              , sleeping := []
              , cancelled := []
              , inflight := []
              , done := [0] },
              [Event.genCall ("A") ("c1"), Event.sendCall ("p1") ("re: A"),
               Event.saveCall ("p1") ("+1000") ("re: A") MessageDirection.outgoing (some 1)]) :=
  ⟨rfl, rfl⟩

/-- C2 (amended): when a batch's timer fires, the flush reads the batch's
data via `pending_batches.get`, leaving the map entry in place — the state
at which processing starts has the same `pending_batches` — and the entry
is removed only after processing completes, by the separate `_cleanup` step
of the same atomic flush body, whatever the collaborators return.  The two
steps are composed adjacently, as the source executes them. -/
theorem claim_C2_amended_read_then_cleanup (cb : Collab) (s : BatcherState)
    (t u : Nat) (b : BatchData)
    (hs : t ∈ s.sleeping)
    (hb : lookupBatch u s.pending_batches = some b)
    (hin : s.inflight = []) :
    ∃ s1 s2 : BatcherState,
      step cb s (Act.fireBegin t u) = some (s1, []) ∧
      s1.pending_batches = s.pending_batches ∧
      step cb s1 (Act.fireEnd t u)
        = some (s2, process_batch cb u b.messages b.phone_number b.conversation_id) ∧
      lookupBatch u s2.pending_batches = none := by
  have h1 : step cb s (Act.fireBegin t u)
      = some ({ s with sleeping := s.sleeping.erase t, inflight := [(t, u, b)] }, []) := by
    simp [step, hs, hb, hin]
  have h2 : step cb ({ s with sleeping := s.sleeping.erase t, inflight := [(t, u, b)] } : BatcherState)
      (Act.fireEnd t u)
      = some ({ s with
                  pending_batches := removeBatch u s.pending_batches,
                  sleeping := s.sleeping.erase t,
                  inflight := [],
                  done := t :: s.done },
              process_batch cb u b.messages b.phone_number b.conversation_id) := by
    simp [step, findInflight, cleanup, List.filter]
  refine ⟨_, _, h1, rfl, h2, ?_⟩
  exact lookupBatch_removeBatch u s.pending_batches

/-- Witness for C2 (amended) at a concrete state. -/
theorem claim_C2_amended_witness :
    ∃ s1 s2 : BatcherState,
      step cbOk stateA (Act.fireBegin 0 1) = some (s1, []) ∧
      s1.pending_batches = stateA.pending_batches ∧
      step cbOk s1 (Act.fireEnd 0 1)
        = some (s2, process_batch cbOk 1 ["A"] ("p1") ("c1")) ∧
      lookupBatch 1 s2.pending_batches = none :=
  claim_C2_amended_read_then_cleanup cbOk stateA 0 1 ⟨["A"], "p1", "c1", 0⟩
    (by decide) rfl rfl

/-- C4: a flush whose processing fails at a downstream step (generation,
delivery or persistence) still removes the user's batch from the active
map, and a subsequent `AddMessage` for that user starts a fresh batch
holding only the new message. -/
theorem claim_C4_failed_flush_still_cleans (cb : Collab) (s : BatcherState)
    (t u : Nat) (b : BatchData) (m p2 c2 : String)
    (hin : s.inflight = [(t, u, b)])
    (hfail : processFails cb u b) :
    ∃ s1 : BatcherState,
      step cb s (Act.fireEnd t u)
        = some (s1, process_batch cb u b.messages b.phone_number b.conversation_id) ∧
      lookupBatch u s1.pending_batches = none ∧
      ∃ s2 : BatcherState,
        step cb s1 (Act.add u m p2 c2) = some (s2, []) ∧
        lookupBatch u s2.pending_batches = some ⟨[m], p2, c2, s1.next_task⟩ := by
  clear hfail
  set s1 : BatcherState :=
    { s with
        pending_batches := removeBatch u s.pending_batches,
        inflight := [],
        done := t :: s.done } with hs1
  have h1 : step cb s (Act.fireEnd t u)
      = some (s1, process_batch cb u b.messages b.phone_number b.conversation_id) := by
    simp [step, hin, findInflight, cleanup, List.filter, hs1]
  have hl1 : lookupBatch u s1.pending_batches = none := by
    simpa [hs1] using lookupBatch_removeBatch u s.pending_batches
  refine ⟨s1, h1, hl1, ?_⟩
  have h2 : step cb s1 (Act.add u m p2 c2)
      = some ({ s1 with
                  pending_batches :=
                    s1.pending_batches ++ [(u, ⟨[m], p2, c2, s1.next_task⟩)],
                  next_task := s1.next_task + 1,
                  sleeping := s1.next_task :: s1.sleeping }, []) := by
    simp [step, hl1]
  exact ⟨_, h2, lookupBatch_append_right u _ _ hl1⟩

/-- Witness for C4: user 1's batch is in flight, generation fails, the map
entry is gone afterwards and a new message starts a fresh batch. -/
theorem claim_C4_witness :
    ∃ s1 : BatcherState,
      step cbGenFail
          { initialState with
              pending_batches := [(1, ⟨["A"], "p1", "c1", 0⟩)],
              next_task := 1,
              inflight := [(0, 1, ⟨["A"], "p1", "c1", 0⟩)] }
          (Act.fireEnd 0 1)
        = some (s1, process_batch cbGenFail 1 ["A"] ("p1") ("c1")) ∧
      lookupBatch 1 s1.pending_batches = none ∧
      ∃ s2 : BatcherState,
        step cbGenFail s1 (Act.add 1 ("B") ("p2") ("c2")) = some (s2, []) ∧
        lookupBatch 1 s2.pending_batches = some ⟨["B"], "p2", "c2", s1.next_task⟩ :=
  claim_C4_failed_flush_still_cleans cbGenFail _ 0 1 ⟨["A"], "p1", "c1", 0⟩
    ("B") ("p2") ("c2") rfl (Or.inl ⟨"gen boom", rfl⟩)

/-- C5 counterexample: the default configuration's `debounce_time` is 0
seconds, not 10, and the delay actually slept by the flush timer is the
hard-coded 10 even when `debounce_time` is (already) 0 — so the timer does
not use the configured delay and a 0 configuration does not flush
immediately. -/
theorem claim_C5_counterexample :
    defaultSettings.debounce_time = 0 ∧
    defaultSettings.debounce_time ≠ 10 ∧
    debounce_sleep_seconds defaultSettings = 10 ∧
    debounce_sleep_seconds { defaultSettings with debounce_time := 0 } ≠ 0 :=
  ⟨rfl, by decide, rfl, by decide⟩

/-- C5 (amended): the flush timer always sleeps a hard-coded 10 seconds,
for every configuration; the `debounce_time` setting exists with default 0
seconds but is consumed by no code, so configuring it does not change the
delay. -/
theorem claim_C5_amended_sleep_hardcoded :
    (∀ st : Settings, debounce_sleep_seconds st = 10) ∧
    defaultSettings.debounce_time = 0 :=
  ⟨fun _ => rfl, rfl⟩

/-- C6: when a batch already exists for the user, a further `AddMessage`
appends the text and replaces the timer but keeps the batch's originally
captured phone number and conversation id, ignoring the newly supplied ones
(first-writer-wins). -/
theorem claim_C6_first_writer_wins (cb : Collab) (s : BatcherState) (u : Nat)
    (b : BatchData) (m p2 c2 : String)
    (hb : lookupBatch u s.pending_batches = some b) :
    ∃ s1 : BatcherState,
      step cb s (Act.add u m p2 c2) = some (s1, []) ∧
      lookupBatch u s1.pending_batches
        = some ⟨b.messages ++ [m], b.phone_number, b.conversation_id, s.next_task⟩ := by
  set s1 : BatcherState :=
    { s with
        pending_batches := updateBatch u
          (fun bb => { bb with messages := bb.messages ++ [m], timer := s.next_task })
          s.pending_batches,
        next_task := s.next_task + 1,
        sleeping := s.next_task :: s.sleeping.erase b.timer,
        cancelled :=
          if b.timer ∈ s.sleeping then b.timer :: s.cancelled else s.cancelled } with hs1
  refine ⟨s1, ?_, ?_⟩
  · rw [hs1]
    simp [step, hb]
  · rw [hs1]
    simp [lookupBatch_updateBatch, hb]

/-- Witness for C6: appending `"B"` with a different phone and conversation
keeps the captured `"p1"`, `"c1"`. -/
theorem claim_C6_witness :
    ∃ s1 : BatcherState,
      step cbOk stateA (Act.add 1 ("B") ("p9") ("c9")) = some (s1, []) ∧
      lookupBatch 1 s1.pending_batches = some ⟨["A", "B"], "p1", "c1", 1⟩ :=
  claim_C6_first_writer_wins cbOk stateA 1 ⟨["A"], "p1", "c1", 0⟩ ("B") ("p9") ("c9") rfl

/-- C7: a flush processes its batch in order — the Reply Generator is
invoked first, with the newline-joined text and the captured conversation
id; only on its success is the Delivery Sender invoked, with the captured
phone number and the generated reply; only on its success is the
Persistence Sink invoked to record the outgoing message; a persistence
failure is merely logged: no call is retried and nothing further happens. -/
theorem claim_C7_flush_pipeline_order (cb : Collab) (u : Nat)
    (msgs : List String) (p c : String) :
    ((process_batch cb u msgs p c).head? = some (Event.genCall (joinNL msgs) c)) ∧
    (∀ e, cb.gen (joinNL msgs) c = Except.error e →
       process_batch cb u msgs p c
         = [Event.genCall (joinNL msgs) c,
            Event.errorLogged ("ERROR PROCESSING BATCH: " ++ e)]) ∧
    (∀ r e, cb.gen (joinNL msgs) c = Except.ok r →
       cb.send p r = Except.error e →
       process_batch cb u msgs p c
         = [Event.genCall (joinNL msgs) c, Event.sendCall p r,
            Event.errorLogged ("ERROR PROCESSING BATCH: " ++ e)]) ∧
    (∀ r e, cb.gen (joinNL msgs) c = Except.ok r →
       cb.send p r = Except.ok () →
       cb.save p cb.whatsapp_number r MessageDirection.outgoing (some u) = Except.error e →
       process_batch cb u msgs p c
         = [Event.genCall (joinNL msgs) c, Event.sendCall p r,
            Event.saveCall p cb.whatsapp_number r MessageDirection.outgoing (some u),
            Event.errorLogged ("ERROR PROCESSING BATCH: " ++ e)]) ∧
    (∀ r, cb.gen (joinNL msgs) c = Except.ok r →
       cb.send p r = Except.ok () →
       cb.save p cb.whatsapp_number r MessageDirection.outgoing (some u) = Except.ok () →
       process_batch cb u msgs p c
         = [Event.genCall (joinNL msgs) c, Event.sendCall p r,
            Event.saveCall p cb.whatsapp_number r MessageDirection.outgoing (some u)]) := by
  refine ⟨?_, ?_, ?_, ?_, ?_⟩
  · cases hg : cb.gen (joinNL msgs) c with
    | error e => simp [process_batch, hg]
    | ok r =>
      cases hs : cb.send p r with
      | error e => simp [process_batch, hg, hs]
      | ok v =>
        cases hv : cb.save p cb.whatsapp_number r MessageDirection.outgoing (some u) with
        | error e => simp [process_batch, hg, hs, hv]
        | ok v2 => simp [process_batch, hg, hs, hv]
  · intro e hg
    simp [process_batch, hg]
  · intro r e hg hs
    simp [process_batch, hg, hs]
  · intro r e hg hs hv
    simp [process_batch, hg, hs, hv]
  · intro r hg hs hv
    simp [process_batch, hg, hs, hv]

/-- Witness for C7: the all-success pipeline and the persistence-failure
pipeline at concrete collaborators. -/
theorem claim_C7_witness :
    process_batch cbOk 1 [("a"), ("b")] ("p") ("c")
      = [Event.genCall ("a\nb") ("c"), Event.sendCall ("p") ("re: a\nb"),
         Event.saveCall ("p") ("+1000") ("re: a\nb") MessageDirection.outgoing (some 1)] ∧
    process_batch cbSaveFail 1 [("a")] ("p") ("c")
      = [Event.genCall ("a") ("c"), Event.sendCall ("p") ("re: a"),
         Event.saveCall ("p") ("+1000") ("re: a") MessageDirection.outgoing (some 1),
         Event.errorLogged ("ERROR PROCESSING BATCH: db boom")] :=
  ⟨(claim_C7_flush_pipeline_order cbOk 1 [("a"), ("b")] ("p") ("c")).2.2.2.2
      ("re: a\nb") rfl rfl rfl,
   (claim_C7_flush_pipeline_order cbSaveFail 1 [("a")] ("p") ("c")).2.2.2.1
      ("re: a") ("db boom") rfl rfl rfl⟩

/-- C8: a cancelled debounce timer's remaining execution only re-raises the
cancellation: it emits no collaborator call and no error log, leaves the
batch map and the in-flight set untouched, and the cancelled timer can no
longer begin a flush. -/
theorem claim_C8_cancel_no_side_effects (cb : Collab) (s : BatcherState)
    (t : Nat)
    (hc : t ∈ s.cancelled)
    (hs : t ∉ s.sleeping) :
    ∃ s1 : BatcherState,
      step cb s (Act.fireCancelled t) = some (s1, []) ∧
      s1.pending_batches = s.pending_batches ∧
      s1.inflight = s.inflight ∧
      (∀ u, step cb s (Act.fireBegin t u) = none) := by
  refine ⟨{ s with cancelled := s.cancelled.erase t, done := t :: s.done }, ?_, rfl, rfl, ?_⟩
  · simp [step, hc]
  · intro u
    simp [step, hs]

/-- Witness for C8 at a concrete state. -/
theorem claim_C8_witness :
    ∃ s1 : BatcherState,
      step cbOk { initialState with cancelled := [5] } (Act.fireCancelled 5)
        = some (s1, []) ∧
      s1.pending_batches = BatcherState.pending_batches { initialState with cancelled := [5] } ∧
      s1.inflight = BatcherState.inflight { initialState with cancelled := [5] } ∧
      (∀ u, step cbOk { initialState with cancelled := [5] } (Act.fireBegin 5 u) = none) :=
  claim_C8_cancel_no_side_effects cbOk { initialState with cancelled := [5] } 5
    (by decide) (by decide)

/-- C9: a timer that fires for a userID with no entry in the map is a safe
no-op — no collaborator event, the map and the in-flight set are unchanged,
the task just completes — so a stale fire can never double-flush a batch. -/
theorem claim_C9_missing_entry_noop (cb : Collab) (s : BatcherState)
    (t u : Nat)
    (hs : t ∈ s.sleeping)
    (hb : lookupBatch u s.pending_batches = none) :
    ∃ s1 : BatcherState,
      step cb s (Act.fireBegin t u) = some (s1, []) ∧
      s1.pending_batches = s.pending_batches ∧
      s1.inflight = s.inflight := by
  refine ⟨{ s with sleeping := s.sleeping.erase t, done := t :: s.done }, ?_, rfl, rfl⟩
  simp [step, hs, hb]

/-- Witness for C9 at a concrete state with an empty map. -/
theorem claim_C9_witness :
    ∃ s1 : BatcherState,
      step cbOk { initialState with sleeping := [3] } (Act.fireBegin 3 0)
        = some (s1, []) ∧
      s1.pending_batches = BatcherState.pending_batches { initialState with sleeping := [3] } ∧
      s1.inflight = BatcherState.inflight { initialState with sleeping := [3] } :=
  claim_C9_missing_entry_noop cbOk { initialState with sleeping := [3] } 3 0
    (by decide) rfl

theorem get_or_create_user_messages (db : Db) (phone : String) :
    (get_or_create_user db phone).1.messages = db.messages := by
  unfold get_or_create_user
  cases find_user_by_phone db phone with
  | none => rfl
  | some us => rfl

theorem get_or_create_conversation_messages (n : String) (db : Db) (us : DbUser) :
    (get_or_create_conversation n db us).1.messages = db.messages := by
  unfold get_or_create_conversation
  cases us.openai_conversation_id with
  | none => rfl
  | some cid => rfl

/-- C3 counterexample: at a concrete valid webhook request (with the `To`
field present, as Twilio sends it), the endpoint's deferred work is a
single `process_and_respond` background task and contains no
`MessageBatcher.add_message` invocation at all — the coordinator is never
called by the HTTP layer. -/
theorem claim_C3_counterexample :
    (chat ("+10") ("c1") emptyDb ("+595981123456") ("hi") (some ("+10"))).map
        (fun r => (r.effects, r.status))
      = Except.ok
          ([ChatEffect.backgroundTask ("+595981123456") ("hi") ("+10") ("c1") 1], "received") ∧
    (chat ("+10") ("c1") emptyDb ("+595981123456") ("hi") (some ("+10"))).map
        (fun r => r.effects.countP (fun e => e.isAddMessageCall))
      = Except.ok 0 :=
  ⟨rfl, rfl⟩

/-- C3 (amended): for every inbound webhook request whose sender number
validates, the endpoint behaves as follows.  If the recipient resolves —
the `To` field is absent, empty (falsy), or validates — the endpoint
resolves or creates the user, persists the incoming message body with the
resolved recipient, and schedules exactly one immediate background task
(`process_and_respond`) carrying the sender's number, the body, the
whatsapp number, the user's conversation id and the user's id, returning at
once with status "received" and performing no `MessageBatcher.add_message`
call — the batch coordinator is not wired to the endpoint.  If instead the
`To` field is present, nonempty and invalid, the endpoint returns the
validation error (HTTP 400) without persisting anything or scheduling any
task. -/
theorem claim_C3_amended_background_task (whats ncid : String) (db : Db)
    (fromNum body : String) (toNum : Option String) (sL : List Char)
    (hv : validate_phone_number fromNum.toList = Except.ok sL) :
    (∀ recipient : String, resolve_recipient whats toNum = Except.ok recipient →
      ∃ r : ChatResult, ∃ us : DbUser, ∃ cid : String,
        chat whats ncid db fromNum body toNum = Except.ok r ∧
        r.status = "received" ∧
        us = (get_or_create_user db (String.mk sL)).2 ∧
        r.effects = [ChatEffect.backgroundTask (String.mk sL) body whats cid us.id] ∧
        r.db.messages = db.messages
          ++ [⟨recipient, String.mk sL, body, MessageDirection.incoming, some us.id⟩] ∧
        r.effects.countP (fun e => e.isAddMessageCall) = 0) ∧
    (∀ e : String, resolve_recipient whats toNum = Except.error e →
      chat whats ncid db fromNum body toNum = Except.error e) := by
  have hv2 : validate_phone_number fromNum.data = Except.ok sL := hv
  constructor
  · intro recipient hr
    have hc : chat whats ncid db fromNum body toNum
        = Except.ok
            { db := save_message
                      (get_or_create_conversation ncid
                        (get_or_create_user db (String.mk sL)).1
                        (get_or_create_user db (String.mk sL)).2).1
                      recipient (String.mk sL) body MessageDirection.incoming
                      (some (get_or_create_user db (String.mk sL)).2.id)
            , effects := [ChatEffect.backgroundTask (String.mk sL) body whats
                            (get_or_create_conversation ncid
                              (get_or_create_user db (String.mk sL)).1
                              (get_or_create_user db (String.mk sL)).2).2
                            (get_or_create_user db (String.mk sL)).2.id]
            , status := "received" } := by
      simp [chat, hv2, hr]
    refine ⟨_, (get_or_create_user db (String.mk sL)).2,
            (get_or_create_conversation ncid
              (get_or_create_user db (String.mk sL)).1
              (get_or_create_user db (String.mk sL)).2).2,
            hc, rfl, rfl, rfl, ?_, rfl⟩
    simp [save_message, get_or_create_conversation_messages, get_or_create_user_messages]
  · intro e he
    simp [chat, hv2, he]

/-- Witness for C3 (amended): a concrete request with a valid `To` field
takes the success path, and the same request with an invalid `To` is
rejected with the validation error. -/
theorem claim_C3_amended_witness :
    (∃ r : ChatResult, ∃ us : DbUser, ∃ cid : String,
      chat ("+10") ("c1") emptyDb ("+595981123456") ("hi") (some ("+10")) = Except.ok r ∧
      r.status = "received" ∧
      us = (get_or_create_user emptyDb (String.mk (String.toList ("+595981123456")))).2 ∧
      r.effects = [ChatEffect.backgroundTask
        (String.mk (String.toList ("+595981123456"))) ("hi") ("+10") cid us.id] ∧
      r.db.messages = emptyDb.messages
        ++ [⟨"+10", String.mk (String.toList ("+595981123456")), "hi",
             MessageDirection.incoming, some us.id⟩] ∧
      r.effects.countP (fun e => e.isAddMessageCall) = 0) ∧
    chat ("+10") ("c1") emptyDb ("+595981123456") ("hi") (some ("bad"))
      = Except.error ("Phone number must start with country code (e.g., +595)") :=
  ⟨(claim_C3_amended_background_task ("+10") ("c1") emptyDb ("+595981123456") ("hi")
      (some ("+10")) (String.toList ("+595981123456")) rfl).1 ("+10") rfl,
   (claim_C3_amended_background_task ("+10") ("c1") emptyDb ("+595981123456") ("hi")
      (some ("bad")) (String.toList ("+595981123456")) rfl).2
      ("Phone number must start with country code (e.g., +595)") rfl⟩

theorem removeWhatsappAux_eq_self :
    ∀ (fuel : Nat) (l : List Char), (∀ ch ∈ l, ch ≠ ':') →
      removeWhatsappAux fuel l = l := by
  intro fuel
  induction fuel with
  | zero => intro l h; rfl
  | succ fuel ih =>
    intro l h
    cases l with
    | nil => rfl
    | cons c rest =>
      cases hp : patWhatsapp.isPrefixOf (c :: rest) with
      | false =>
        simp only [removeWhatsappAux, hp, Bool.false_eq_true, if_false]
        rw [ih rest (fun ch hm => h ch (List.mem_cons_of_mem c hm))]
      | true =>
        exfalso
        have hpre : patWhatsapp <+: (c :: rest) := List.isPrefixOf_iff_prefix.mp hp
        obtain ⟨tl, htl⟩ := hpre
        have hmem : (':' : Char) ∈ c :: rest := by
          rw [← htl]
          exact List.mem_append_left tl (by decide)
        exact h ':' hmem rfl

theorem removeWhatsapp_eq_self (l : List Char) (h : ∀ ch ∈ l, ch ≠ ':') :
    removeWhatsapp l = l :=
  removeWhatsappAux_eq_self l.length l h

theorem dropWhileChar_eq_self (p : Char → Bool) :
    ∀ l : List Char, (∀ ch ∈ l, p ch = false) → l.dropWhile p = l := by
  intro l h
  cases l with
  | nil => rfl
  | cons c rest => simp [List.dropWhile_cons, h c (List.mem_cons_self c rest)]

theorem pyStrip_eq_self (l : List Char) (h : ∀ ch ∈ l, pyIsSpace ch = false) :
    pyStrip l = l := by
  unfold pyStrip
  rw [dropWhileChar_eq_self pyIsSpace l h]
  rw [dropWhileChar_eq_self pyIsSpace l.reverse
    (fun ch hm => h ch (List.mem_reverse.mp hm))]
  exact List.reverse_reverse l

theorem plusDigit_ne_colon (ch : Char) (h : ch = '+' ∨ ch.isDigit = true) :
    ch ≠ ':' := by
  rcases h with rfl | hd
  · decide
  · intro hx
    rw [hx] at hd
    exact absurd hd (by decide)

theorem plusDigit_not_space (ch : Char) (h : ch = '+' ∨ ch.isDigit = true) :
    pyIsSpace ch = false := by
  rcases h with rfl | hd
  · decide
  · cases hsp : pyIsSpace ch with
    | false => rfl
    | true =>
      exfalso
      have hm : ch ∈ pySpaceChars := by
        have := hsp
        unfold pyIsSpace at this
        exact List.elem_iff.mp this
      have : ch = ' ' ∨ ch = '\t' ∨ ch = '\n' ∨ ch = '\r' ∨ ch = '\x0b' ∨ ch = '\x0c' := by
        simpa [pySpaceChars] using hm
      rcases this with rfl | rfl | rfl | rfl | rfl | rfl <;> exact absurd hd (by decide)

theorem plusDigit_not_space_filter (ch : Char) (h : ch = '+' ∨ ch.isDigit = true) :
    (ch != ' ') = true := by
  rw [bne_iff_ne]
  rintro rfl
  rcases h with hx | hd
  · exact absurd hx (by decide)
  · exact absurd hd (by decide)

theorem pyNormalize_plus_digits (t : List Char) (hall : t.all Char.isDigit = true) :
    pyNormalize ('+' :: t) = '+' :: t := by
  have hok : ∀ ch ∈ '+' :: t, ch = '+' ∨ ch.isDigit = true := by
    intro ch hm
    rcases List.mem_cons.mp hm with rfl | hm2
    · exact Or.inl rfl
    · exact Or.inr (List.all_eq_true.mp hall ch hm2)
  unfold pyNormalize
  rw [removeWhatsapp_eq_self _ (fun ch hm => plusDigit_ne_colon ch (hok ch hm))]
  rw [pyStrip_eq_self _ (fun ch hm => plusDigit_not_space ch (hok ch hm))]
  exact List.filter_eq_self.mpr (fun ch hm => plusDigit_not_space_filter ch (hok ch hm))

theorem validate_ok_shape (p n : List Char)
    (h : validate_phone_number p = Except.ok n) :
    ∃ t : List Char, n = '+' :: t ∧ t.all Char.isDigit = true ∧ t ≠ [] ∧
      (pat595.isPrefixOf n = true → n.length = 13) := by
  simp only [validate_phone_number] at h
  split_ifs at h with h1 h2 h3 h4 h5
  · -- +595 branch success: prefix +595, length 13, digits after the code
    have hn : pyNormalize p = n := by simpa using h
    rw [hn] at h2 h3 h4
    obtain ⟨t4, ht4⟩ := List.isPrefixOf_iff_prefix.mp h2
    have hdig : pyIsDigitStr (n.drop 4) = true := by
      revert h4
      cases pyIsDigitStr (n.drop 4) <;> simp
    have hlen : n.length = 13 := not_ne_iff.mp h3
    have hdrop : n.drop 4 = t4 := by
      rw [← ht4]
      have h4eq : (4 : Nat) = pat595.length := rfl
      rw [h4eq]
      exact List.drop_left pat595 t4
    rw [hdrop] at hdig
    have hdig2 := hdig
    unfold pyIsDigitStr at hdig2
    rw [Bool.and_eq_true] at hdig2
    refine ⟨'5' :: '9' :: '5' :: t4, ?_, ?_, by simp, fun _ => hlen⟩
    · rw [← ht4]; rfl
    · simp only [List.all_cons, Bool.and_eq_true]
      exact ⟨by decide, by decide, by decide, hdig2.2⟩
  · -- other-country branch success: digits after the +
    have hn : pyNormalize p = n := by simpa using h
    rw [hn] at h1 h2 h5
    have hplus : ['+'].isPrefixOf n = true := by
      revert h1
      cases ['+'].isPrefixOf n <;> simp
    obtain ⟨t1, ht1⟩ := List.isPrefixOf_iff_prefix.mp hplus
    have hdig : pyIsDigitStr (n.drop 1) = true := by
      revert h5
      cases pyIsDigitStr (n.drop 1) <;> simp
    have hdrop : n.drop 1 = t1 := by
      rw [← ht1]
      rfl
    rw [hdrop] at hdig
    have hdig2 := hdig
    unfold pyIsDigitStr at hdig2
    rw [Bool.and_eq_true] at hdig2
    have hne : t1 ≠ [] := by
      intro hx
      rw [hx] at hdig2
      exact absurd hdig2.1 (by decide)
    refine ⟨t1, by rw [← ht1]; rfl, hdig2.2, hne, fun hx => ?_⟩
    exact absurd hx h2

/-- C10: phone-number normalization/validation is idempotent — whenever
`validate_phone_number` succeeds and returns a normalized number, running it
again on that number succeeds and returns it unchanged. -/
theorem claim_C10_validate_idempotent (p n : List Char)
    (h : validate_phone_number p = Except.ok n) :
    validate_phone_number n = Except.ok n := by
  obtain ⟨t, rfl, hall, hne, hlen⟩ := validate_ok_shape p _ h
  have hfix : pyNormalize ('+' :: t) = '+' :: t := pyNormalize_plus_digits t hall
  have hplus : ['+'].isPrefixOf ('+' :: t) = true := by
    simp [List.isPrefixOf]
  simp only [validate_phone_number, hfix, hplus, Bool.not_true, Bool.false_eq_true,
    if_false]
  cases hp : pat595.isPrefixOf ('+' :: t) with
  | true =>
    have hl13 : ('+' :: t).length = 13 := hlen hp
    have hlent : (t.drop 3).length = 9 := by
      simp only [List.length_cons] at hl13
      simp only [List.length_drop]
      omega
    have hne3 : (t.drop 3).isEmpty = false := by
      cases hx : t.drop 3 with
      | nil => rw [hx] at hlent; simp at hlent
      | cons a l => rfl
    have hall3 : (t.drop 3).all Char.isDigit = true :=
      List.all_eq_true.mpr
        (fun ch hm => List.all_eq_true.mp hall ch (List.drop_subset 3 t hm))
    have hdig : pyIsDigitStr (t.drop 3) = true := by
      unfold pyIsDigitStr
      rw [hne3, hall3]
      rfl
    simp [hp, hl13, hdig]
  | false =>
    have hie : t.isEmpty = false := by
      cases hx : t with
      | nil => exact absurd hx hne
      | cons a l => rfl
    have hdig : pyIsDigitStr t = true := by
      unfold pyIsDigitStr
      rw [hie, hall]
      rfl
    simp [hp, hdig]

/-- Witness for C10: a raw WhatsApp-formatted number normalizes to
`+595981123456`, and re-validating that output returns it unchanged. -/
theorem claim_C10_witness :
    validate_phone_number (String.toList ("whatsapp:+595 981 123456"))
      = Except.ok (String.toList ("+595981123456")) ∧
    validate_phone_number (String.toList ("+595981123456"))
      = Except.ok (String.toList ("+595981123456")) :=
  ⟨rfl, claim_C10_validate_idempotent (String.toList ("whatsapp:+595 981 123456")) _ rfl⟩

end Twilio
